import Mathlib

/-!
# Verification of the finger-tracking snake game (`src/main.py`)

Shallow embedding of the game's data model and per-frame update logic.

Modelling conventions:
* Python floats are idealised as real numbers (`ℝ`); decimal literals such as
  `0.99`, `0.55` or `6.5` denote their exact rational values.
* `math.hypot x y` is `Real.sqrt (x^2 + y^2)`.
* Python `int()` applied to a float truncates toward zero (`pyInt`), and
  Python's `//` on nonnegative integers is floor division (`Int.fdiv`).
* Calls to `random.randint(a, b)` consume a stream `rng : ℕ → ℕ` of
  nondeterministic draws; a draw `n` yields `a + n % (b - a + 1)`, which
  ranges over exactly the interval `[a, b]` that `randint` can produce.
  Each call site of the Python module gets its own stream, which models the
  single global Mersenne-Twister state nondeterministically.
  `random.random()` and `random.uniform` draws (used only for cosmetic
  particle parameters) are taken directly from real-valued input streams,
  constrained to the intervals the Python functions guarantee.
* `pygame.Rect` is the integer rectangle `Rect`; `collidepoint` and
  `colliderect` follow pygame's semantics (right/bottom edges excluded,
  strict overlap), and `inflate` grows a rectangle keeping its centre.
* The screen size `WIN_W × WIN_H` (set at runtime by the fullscreen mode)
  and the camera preview height `CAM_H` (computed from the warm frame) are
  parameters `W H camH : ℤ`.
* Rendering, sound playback, and the camera/mediapipe pipeline itself are
  not modelled; the hand-landmark result enters each frame as an optional
  normalised coordinate pair, and the frame clock `time.time()` enters as a
  real-valued input.
-/

namespace SnakeGame

/-! ## Configuration constants (`main.py` lines 21-49) -/

def CAM_MARGIN_TOP : ℤ := 10
def FOOD_GAP_BELOW_CAM : ℤ := 20
def FPS : ℝ := 30
def SNAKE_SPEED : ℝ := 6.5
def SEG_SPACING : ℤ := 12
def INITIAL_LEN : ℕ := 7
def HEAD_RADIUS : ℝ := 12
def FOOD_RADIUS : ℝ := 12
def TIME_LIMIT : ℝ := 60
def OBSTACLE_COUNT : ℕ := 6
def OBSTACLE_MIN : ℤ := 40
def OBSTACLE_MAX : ℤ := 90
def PARTICLE_COUNT : ℕ := 18
def PARTICLE_LIFE : ℝ := 0.55
def PAGE_MAIN : ℕ := 0
def PAGE_GAME : ℕ := 1
def PAGE_END : ℕ := 2

/-! ## Python primitives -/

/-- Python `int()` on a float: truncation toward zero. -/
noncomputable def pyInt (x : ℝ) : ℤ := if 0 ≤ x then ⌊x⌋ else ⌈x⌉

/-- `random.randint a b` driven by one nondeterministic draw `n`.
For `a ≤ b` the result is `a + n % (b - a + 1) ∈ [a, b]`; every value of
the interval is realised by some draw. -/
def randint (a b : ℤ) (n : ℕ) : ℤ := a + (n : ℤ) % (b - a + 1)

/-- `math.hypot x y`. -/
noncomputable def hypot (x y : ℝ) : ℝ := Real.sqrt (x ^ 2 + y ^ 2)

theorem hypot_nonneg (x y : ℝ) : 0 ≤ hypot x y := Real.sqrt_nonneg _

theorem hypot_lt_iff (x y c : ℝ) (hc : 0 < c) :
    hypot x y < c ↔ x ^ 2 + y ^ 2 < c ^ 2 := Real.sqrt_lt' hc

theorem hypot_zero : hypot 0 0 = 0 := by
  simp [hypot]

/-- `hypot` of an axis-aligned displacement. -/
theorem hypot_of_nonneg_left (x : ℝ) (hx : 0 ≤ x) : hypot x 0 = x := by
  simp only [hypot]
  rw [show x ^ 2 + (0:ℝ) ^ 2 = x ^ 2 by ring, Real.sqrt_sq hx]

theorem randint_lower (a b : ℤ) (n : ℕ) : a ≤ randint a b n := by
  unfold randint
  rcases eq_or_ne (b - a + 1) 0 with h | h
  · simp [h]
  · have := Int.emod_nonneg (n : ℤ) h
    omega

theorem randint_upper (a b : ℤ) (n : ℕ) (hab : a ≤ b) : randint a b n ≤ b := by
  unfold randint
  have hpos : 0 < b - a + 1 := by omega
  have := Int.emod_lt_of_pos (n : ℤ) hpos
  omega

/-! ## Rectangles (`pygame.Rect`) -/

structure Rect where
  x : ℤ
  y : ℤ
  w : ℤ
  h : ℤ
deriving DecidableEq

/-- `Rect.collidepoint`: pygame excludes right and bottom edges. -/
def Rect.collidepoint (r : Rect) (p : ℤ × ℤ) : Prop :=
  r.x ≤ p.1 ∧ p.1 < r.x + r.w ∧ r.y ≤ p.2 ∧ p.2 < r.y + r.h

instance (r : Rect) (p : ℤ × ℤ) : Decidable (r.collidepoint p) := by
  unfold Rect.collidepoint; infer_instance

/-- `Rect.colliderect`: strict overlap on both axes. -/
def Rect.colliderect (a b : Rect) : Prop :=
  a.x < b.x + b.w ∧ b.x < a.x + a.w ∧ a.y < b.y + b.h ∧ b.y < a.y + a.h

instance (a b : Rect) : Decidable (a.colliderect b) := by
  unfold Rect.colliderect; infer_instance

/-- `Rect.inflate`: grow by `(dx, dy)` keeping the centre
(`x -= dx/2`, integer division; all call sites use even arguments, for
which every integer-division convention agrees). -/
def Rect.inflate (r : Rect) (dx dy : ℤ) : Rect :=
  ⟨r.x - dx.fdiv 2, r.y - dy.fdiv 2, r.w + dx, r.h + dy⟩

/-- `clamp` (`main.py` line 244). -/
def clamp (v a b : ℝ) : ℝ := max a (min b v)

/-- `head_hits_rect` (`main.py` lines 245-249). -/
noncomputable def head_hits_rect (head : ℝ × ℝ) (rect : Rect) : Prop :=
  let cx := clamp head.1 (rect.x : ℝ) ((rect.x + rect.w : ℤ) : ℝ)
  let cy := clamp head.2 (rect.y : ℝ) ((rect.y + rect.h : ℤ) : ℝ)
  hypot (head.1 - cx) (head.2 - cy) < HEAD_RADIUS + 2

theorem pyInt_intCast (n : ℤ) : pyInt (n : ℝ) = n := by
  unfold pyInt
  split <;> simp

/-- `⌊x⌋ ≤ 0 ↔ x < 1`, used for the timer check. -/
theorem pyInt_le_zero_iff (x : ℝ) (hx : 0 ≤ x) : pyInt x ≤ 0 ↔ x < 1 := by
  unfold pyInt
  rw [if_pos hx]
  constructor
  · intro h
    have := Int.lt_floor_add_one x
    calc x < ⌊x⌋ + 1 := this
    _ ≤ 1 := by exact_mod_cast by omega
  · intro h
    have : ⌊x⌋ < 1 := by
      rw [Int.floor_lt]; exact_mod_cast h
    omega

section Screen

variable (W H camH : ℤ)

/-! ## Obstacle generation (`generate_obstacles`, lines 177-193) -/

/-- The candidate rectangle of try `t`: draws `w`, `h`, `x`, `y` in this
order, consuming stream indices `4t .. 4t+3`. -/
def obs_try (rng : ℕ → ℕ) (t : ℕ) : Rect :=
  let w := randint OBSTACLE_MIN OBSTACLE_MAX (rng (4 * t))
  let h := randint OBSTACLE_MIN OBSTACLE_MAX (rng (4 * t + 1))
  let x := randint 30 (W - w - 30) (rng (4 * t + 2))
  let y := randint 120 (H - h - 30) (rng (4 * t + 3))
  ⟨x, y, w, h⟩

/-- A candidate is accepted when it misses every existing rectangle
inflated by 60 px in each dimension. -/
def obs_ok (r : Rect) (rects : List Rect) : Prop :=
  ∀ ex ∈ rects, ¬ r.colliderect (ex.inflate 60 60)

instance (r : Rect) (rects : List Rect) : Decidable (obs_ok r rects) := by
  unfold obs_ok; infer_instance

/-- The rejection-sampling loop of `generate_obstacles`: `fuel` is the
remaining number of tries (initially 400), `t` the current try index. -/
def obstacles_loop (rng : ℕ → ℕ) (count : ℕ) : ℕ → ℕ → List Rect → List Rect
  | 0, _, rects => rects
  | fuel + 1, t, rects =>
    if rects.length < count then
      let r := obs_try W H rng t
      if obs_ok r rects then obstacles_loop rng count fuel (t + 1) (rects ++ [r])
      else obstacles_loop rng count fuel (t + 1) rects
    else rects

/-- `generate_obstacles(count)` (lines 177-193). -/
def generate_obstacles (rng : ℕ → ℕ) (count : ℕ) : List Rect :=
  obstacles_loop W H rng count 400 0 []

/-! ## Food spawning (`spawn_food`, lines 198-216) -/

/-- `min_y = CAM_Y + CAM_H + FOOD_GAP_BELOW_CAM`, raised to 120 when
smaller (lines 200-202); `CAM_Y = CAM_MARGIN_TOP`. -/
def spawn_min_y : ℤ :=
  if CAM_MARGIN_TOP + camH + FOOD_GAP_BELOW_CAM < 120 then 120
  else CAM_MARGIN_TOP + camH + FOOD_GAP_BELOW_CAM

/-- The candidate food point of try `k`, consuming stream indices
`2k` and `2k+1`. -/
def food_try (rng : ℕ → ℕ) (k : ℕ) : ℤ × ℤ :=
  (randint 60 (W - 60) (rng (2 * k)),
   randint (spawn_min_y camH) (H - 60) (rng (2 * k + 1)))

/-- A candidate food point is accepted when it is inside no obstacle and
at least 120 px from the snake's head (`snake[0]`). -/
noncomputable def food_accept (obst : List Rect) (head : ℝ × ℝ) (pt : ℤ × ℤ) : Prop :=
  (¬ ∃ r ∈ obst, r.collidepoint pt) ∧
  ¬ (hypot ((pt.1 : ℝ) - head.1) ((pt.2 : ℝ) - head.2) < 120)

open scoped Classical in
/-- The rejection-sampling loop of `spawn_food`: `fuel` is the remaining
number of tries (initially 800), `k` the current try index; `none` means
all tries were rejected. -/
noncomputable def spawn_food_loop (rng : ℕ → ℕ) (obst : List Rect) (head : ℝ × ℝ) :
    ℕ → ℕ → Option (ℤ × ℤ)
  | 0, _ => none
  | fuel + 1, k =>
    let pt := food_try W H camH rng k
    if food_accept obst head pt then some pt
    else spawn_food_loop rng obst head fuel (k + 1)

/-- `spawn_food(obstacles, snake)` (lines 198-216); `head` is
`snake[0]`.  After 800 rejected tries the fallback point
`(WIN_W//2 + randint(-120,120), max(int(min_y), WIN_H//2))` is returned
without any obstacle check. -/
noncomputable def spawn_food (rng : ℕ → ℕ) (obst : List Rect) (head : ℝ × ℝ) : ℤ × ℤ :=
  match spawn_food_loop W H camH rng obst head 800 0 with
  | some pt => pt
  | none => (W.fdiv 2 + randint (-120) 120 (rng 1600), max (spawn_min_y camH) (H.fdiv 2))

/-! ## Loop lemmas -/

/-- `inflate 60 60` in closed form. -/
theorem inflate_sixty (r : Rect) : r.inflate 60 60 = ⟨r.x - 30, r.y - 30, r.w + 60, r.h + 60⟩ := by
  have h : (60 : ℤ).fdiv 2 = 30 := by decide
  simp [Rect.inflate, h]

/-- `inflate (-16) (-16)` in closed form. -/
theorem inflate_neg_sixteen (r : Rect) :
    r.inflate (-16) (-16) = ⟨r.x + 8, r.y + 8, r.w - 16, r.h - 16⟩ := by
  have h : (-16 : ℤ).fdiv 2 = -8 := by decide
  simp only [Rect.inflate, h, Rect.mk.injEq]
  omega

/-- The separation test is symmetric: `r` missing `ex` inflated by 60 is
the same as `ex` missing `r` inflated by 60. -/
theorem colliderect_inflate_comm (a b : Rect) :
    a.colliderect (b.inflate 60 60) ↔ b.colliderect (a.inflate 60 60) := by
  simp only [inflate_sixty, Rect.colliderect]
  omega

/-- Mutual separation of two obstacle rectangles. -/
def RectSep (a b : Rect) : Prop :=
  ¬ a.colliderect (b.inflate 60 60) ∧ ¬ b.colliderect (a.inflate 60 60)

/-- A rectangle lies inside the screen. -/
def RectInScreen (r : Rect) : Prop :=
  0 ≤ r.x ∧ 0 ≤ r.y ∧ r.x + r.w ≤ W ∧ r.y + r.h ≤ H

/-- A (food) point lies inside the screen. -/
def PtInScreen (p : ℤ × ℤ) : Prop :=
  0 ≤ p.1 ∧ p.1 ≤ W ∧ 0 ≤ p.2 ∧ p.2 ≤ H

theorem obstacles_loop_length_le (rng : ℕ → ℕ) (count : ℕ) (fuel t : ℕ)
    (rects : List Rect) (h : rects.length ≤ count) :
    (obstacles_loop W H rng count fuel t rects).length ≤ count := by
  induction fuel generalizing t rects with
  | zero => simpa [obstacles_loop]
  | succ n ih =>
    simp only [obstacles_loop]
    split
    · split
      · exact ih (t + 1) _ (by simpa using ‹rects.length < count›)
      · exact ih (t + 1) _ h
    · exact h

theorem obstacles_loop_pairwise (rng : ℕ → ℕ) (count : ℕ) (fuel t : ℕ)
    (rects : List Rect) (h : rects.Pairwise RectSep) :
    (obstacles_loop W H rng count fuel t rects).Pairwise RectSep := by
  induction fuel generalizing t rects with
  | zero => simpa [obstacles_loop]
  | succ n ih =>
    simp only [obstacles_loop]
    split
    · split
      · rename_i hok
        refine ih (t + 1) _ ?_
        rw [List.pairwise_append]
        refine ⟨h, List.pairwise_singleton _ _, ?_⟩
        intro a ha b hb
        rw [List.mem_singleton] at hb
        subst hb
        exact ⟨fun hc => hok a ha ((colliderect_inflate_comm _ _).mpr hc), hok a ha⟩
      · exact ih (t + 1) _ h
    · exact h

theorem obstacles_loop_mem (rng : ℕ → ℕ) (count : ℕ) (fuel t : ℕ)
    (rects : List Rect) (r : Rect) (hr : r ∈ obstacles_loop W H rng count fuel t rects) :
    r ∈ rects ∨ ∃ j, r = obs_try W H rng j := by
  induction fuel generalizing t rects with
  | zero => simp only [obstacles_loop] at hr; exact Or.inl hr
  | succ n ih =>
    simp only [obstacles_loop] at hr
    split at hr
    · split at hr
      · rcases ih (t + 1) _ hr with hmem | hnew
        · rcases List.mem_append.mp hmem with h1 | h2
          · exact Or.inl h1
          · exact Or.inr ⟨t, List.mem_singleton.mp h2⟩
        · exact Or.inr hnew
      · exact ih (t + 1) _ hr
    · exact Or.inl hr

/-- If every remaining try collides with the accumulated rectangles, the
loop returns them unchanged. -/
theorem obstacles_loop_stuck (rng : ℕ → ℕ) (count : ℕ) (fuel t : ℕ)
    (rects : List Rect)
    (h : ∀ j, t ≤ j → ¬ obs_ok (obs_try W H rng j) rects) :
    obstacles_loop W H rng count fuel t rects = rects := by
  induction fuel generalizing t with
  | zero => simp [obstacles_loop]
  | succ n ih =>
    simp only [obstacles_loop]
    split
    · rw [if_neg (h t le_rfl)]
      exact ih (t + 1) fun j hj => h j (by omega)
    · rfl

/-- Every candidate rectangle of `generate_obstacles` lies on-screen once
the screen is at least 150 × 240. -/
theorem obs_try_in_screen (hW : 150 ≤ W) (hH : 240 ≤ H) (rng : ℕ → ℕ) (t : ℕ) :
    RectInScreen W H (obs_try W H rng t) := by
  simp only [obs_try, RectInScreen, OBSTACLE_MIN, OBSTACLE_MAX]
  set w := randint 40 90 (rng (4 * t)) with hwdef
  set h := randint 40 90 (rng (4 * t + 1)) with hhdef
  have hw1 : 40 ≤ w := randint_lower _ _ _
  have hw2 : w ≤ 90 := randint_upper _ _ _ (by omega)
  have hh1 : 40 ≤ h := randint_lower _ _ _
  have hh2 : h ≤ 90 := randint_upper _ _ _ (by omega)
  have hx1 : 30 ≤ randint 30 (W - w - 30) (rng (4 * t + 2)) := randint_lower _ _ _
  have hx2 : randint 30 (W - w - 30) (rng (4 * t + 2)) ≤ W - w - 30 :=
    randint_upper _ _ _ (by omega)
  have hy1 : 120 ≤ randint 120 (H - h - 30) (rng (4 * t + 3)) := randint_lower _ _ _
  have hy2 : randint 120 (H - h - 30) (rng (4 * t + 3)) ≤ H - h - 30 :=
    randint_upper _ _ _ (by omega)
  exact ⟨by omega, by omega, by omega, by omega⟩

theorem spawn_min_y_lower : 120 ≤ spawn_min_y camH ∧
    CAM_MARGIN_TOP + camH + FOOD_GAP_BELOW_CAM ≤ spawn_min_y camH := by
  unfold spawn_min_y
  split <;> omega

theorem spawn_food_loop_some (rng : ℕ → ℕ) (obst : List Rect) (head : ℝ × ℝ)
    (fuel k : ℕ) (pt : ℤ × ℤ)
    (h : spawn_food_loop W H camH rng obst head fuel k = some pt) :
    food_accept obst head pt ∧ ∃ j, pt = food_try W H camH rng j := by
  induction fuel generalizing k with
  | zero => simp [spawn_food_loop] at h
  | succ n ih =>
    simp only [spawn_food_loop] at h
    split at h
    · cases h
      exact ⟨by assumption, k, rfl⟩
    · exact ih (k + 1) h

/-- If every remaining try is rejected, the loop fails. -/
theorem spawn_food_loop_none (rng : ℕ → ℕ) (obst : List Rect) (head : ℝ × ℝ)
    (fuel k : ℕ)
    (h : ∀ j, k ≤ j → j < k + fuel → ¬ food_accept obst head (food_try W H camH rng j)) :
    spawn_food_loop W H camH rng obst head fuel k = none := by
  induction fuel generalizing k with
  | zero => simp [spawn_food_loop]
  | succ n ih =>
    simp only [spawn_food_loop]
    rw [if_neg (h k le_rfl (by omega))]
    exact ih (k + 1) fun j h1 h2 => h j (by omega) (by omega)

/-- `spawn_food` either returns an accepted sample of the loop or, when
all 800 tries are rejected, the fallback point. -/
theorem spawn_food_spec (rng : ℕ → ℕ) (obst : List Rect) (head : ℝ × ℝ) :
    (food_accept obst head (spawn_food W H camH rng obst head) ∧
      ∃ j, spawn_food W H camH rng obst head = food_try W H camH rng j) ∨
    spawn_food W H camH rng obst head =
      (W.fdiv 2 + randint (-120) 120 (rng 1600), max (spawn_min_y camH) (H.fdiv 2)) := by
  unfold spawn_food
  rcases hm : spawn_food_loop W H camH rng obst head 800 0 with _ | pt
  · exact Or.inr rfl
  · exact Or.inl (spawn_food_loop_some W H camH rng obst head 800 0 pt hm)

/-- All returns of `spawn_food` have `y ≥ min_y`. -/
theorem spawn_food_y_min (rng : ℕ → ℕ) (obst : List Rect) (head : ℝ × ℝ) :
    spawn_min_y camH ≤ (spawn_food W H camH rng obst head).2 := by
  rcases spawn_food_spec W H camH rng obst head with ⟨_, j, hj⟩ | hfb
  · rw [hj]
    exact randint_lower _ _ _
  · rw [hfb]
    exact le_max_left _ _

/-- When all 800 tries are rejected, `spawn_food` returns the fallback
point, which is a deterministic function of the input streams. -/
theorem spawn_food_fallback (rng : ℕ → ℕ) (obst : List Rect) (head : ℝ × ℝ)
    (h : ∀ j < 800, ¬ food_accept obst head (food_try W H camH rng j)) :
    spawn_food W H camH rng obst head =
      (W.fdiv 2 + randint (-120) 120 (rng 1600), max (spawn_min_y camH) (H.fdiv 2)) := by
  unfold spawn_food
  rw [spawn_food_loop_none W H camH rng obst head 800 0 fun j _ hj => h j (by omega)]

/-! ## Bounded randomness consumption (claim C8) -/

theorem food_try_congr (rng rng' : ℕ → ℕ) (k : ℕ) (hk : k ≤ 799)
    (hag : ∀ i < 1601, rng i = rng' i) :
    food_try W H camH rng k = food_try W H camH rng' k := by
  unfold food_try
  rw [hag (2 * k) (by omega), hag (2 * k + 1) (by omega)]

theorem spawn_food_loop_congr (rng rng' : ℕ → ℕ) (obst : List Rect) (head : ℝ × ℝ)
    (fuel k : ℕ) (hfk : fuel + k ≤ 800) (hag : ∀ i < 1601, rng i = rng' i) :
    spawn_food_loop W H camH rng obst head fuel k =
    spawn_food_loop W H camH rng' obst head fuel k := by
  induction fuel generalizing k with
  | zero => simp [spawn_food_loop]
  | succ n ih =>
    simp only [spawn_food_loop]
    rw [food_try_congr W H camH rng rng' k (by omega) hag]
    split
    · rfl
    · exact ih (k + 1) (by omega)

/-- `spawn_food` reads at most the first 1601 entries of its stream:
the 800 loop tries (two draws each) and the fallback draw. -/
theorem spawn_food_congr (rng rng' : ℕ → ℕ) (obst : List Rect) (head : ℝ × ℝ)
    (hag : ∀ i < 1601, rng i = rng' i) :
    spawn_food W H camH rng obst head = spawn_food W H camH rng' obst head := by
  unfold spawn_food
  rw [spawn_food_loop_congr W H camH rng rng' obst head 800 0 (by omega) hag,
    hag 1600 (by omega)]

theorem obs_try_congr (rng rng' : ℕ → ℕ) (t : ℕ) (ht : t ≤ 399)
    (hag : ∀ i < 1600, rng i = rng' i) :
    obs_try W H rng t = obs_try W H rng' t := by
  unfold obs_try
  rw [hag (4 * t) (by omega), hag (4 * t + 1) (by omega), hag (4 * t + 2) (by omega),
    hag (4 * t + 3) (by omega)]

theorem obstacles_loop_congr (rng rng' : ℕ → ℕ) (count : ℕ) (fuel t : ℕ)
    (rects : List Rect) (hft : fuel + t ≤ 400) (hag : ∀ i < 1600, rng i = rng' i) :
    obstacles_loop W H rng count fuel t rects =
    obstacles_loop W H rng' count fuel t rects := by
  induction fuel generalizing t rects with
  | zero => simp [obstacles_loop]
  | succ n ih =>
    simp only [obstacles_loop]
    rw [obs_try_congr W H rng rng' t (by omega) hag]
    split
    · split
      · exact ih (t + 1) _ (by omega)
      · exact ih (t + 1) _ (by omega)
    · rfl

/-- `generate_obstacles` reads at most the first 1600 entries of its
stream: 400 tries of four draws each. -/
theorem generate_obstacles_congr (rng rng' : ℕ → ℕ) (count : ℕ)
    (hag : ∀ i < 1600, rng i = rng' i) :
    generate_obstacles W H rng count = generate_obstacles W H rng' count := by
  unfold generate_obstacles
  exact obstacles_loop_congr W H rng rng' count 400 0 [] (by omega) hag

end Screen

/-! ## Game state (`main.py` lines 165-231) -/

/-- One cosmetic explosion particle (line 231). -/
structure Particle where
  pos : ℝ × ℝ
  vel : ℝ × ℝ
  born : ℝ
  life : ℝ
  size : ℤ
  color : ℤ × ℤ × ℤ

instance : Inhabited Particle :=
  ⟨{ pos := (0, 0), vel := (0, 0), born := 0, life := 0, size := 0, color := (0, 0, 0) }⟩

/-- The mutable module-level game state.  `startTime` is `start_time`
(initially `None` in Python; modelled as 0, it is only read on
`PAGE_GAME`, which is reachable only after `start_game` set it). -/
structure GameState where
  page : ℕ
  score : ℕ
  gameOver : Prop
  running : Bool
  startTime : ℝ
  snake : List (ℝ × ℝ)
  targetPos : ℤ × ℤ
  obstacles : List Rect
  food : ℤ × ℤ
  particles : List Particle

/-- External inputs consumed by one `PAGE_GAME` iteration of the main
loop: the clock, the camera read result, the detected hand landmark
(normalised coordinates of `landmark[8]`, `none` when no hand), and the
randomness streams for food respawn and the explosion particles
(`random.random()`, `random.uniform(120,420)`, `randint(3,7)`,
`randint(120,220)`, `randint(0,90)`). -/
structure FrameInput where
  now : ℝ
  camOk : Bool
  hand : Option (ℝ × ℝ)
  rngFood : ℕ → ℕ
  angU : ℕ → ℝ
  spdU : ℕ → ℝ
  szR : ℕ → ℕ
  colG : ℕ → ℕ
  colB : ℕ → ℕ

/-- Ranges guaranteed by `random.random()` and `random.uniform(120, 420)`. -/
def ValidInput (inp : FrameInput) : Prop :=
  (∀ j, 0 ≤ inp.angU j ∧ inp.angU j < 1) ∧
  (∀ j, 120 ≤ inp.spdU j ∧ inp.spdU j ≤ 420)

/-- Messages printed on camera failure (lines 126, 132, 313). -/
inductive Msg
  | cameraNotFound
  | cameraStartupReadFailed
  | camFrameMissing
deriving DecidableEq

/-- Camera startup (lines 124-133): a missing camera or a failed warm
read prints a message and exits the process (`sys.exit(1)`), modelled as
`Except.error`. -/
def camera_startup (opened warmRet : Bool) : Except Msg Unit :=
  if opened = false then .error .cameraNotFound
  else if warmRet = false then .error .cameraStartupReadFailed
  else .ok ()

/-- `spawn_explosion(x, y)` (lines 222-231): appends `PARTICLE_COUNT`
particles; particle `j` draws `ang = random()*2π`, `spd ∈ [120,420]`,
`size = randint(3,7)` and a colour. -/
noncomputable def spawn_explosion (x y : ℝ) (now : ℝ) (inp : FrameInput) : List Particle :=
  (List.range PARTICLE_COUNT).map fun j =>
    { pos := (x, y),
      vel := (Real.cos (inp.angU j * 2 * Real.pi) * inp.spdU j,
              Real.sin (inp.angU j * 2 * Real.pi) * inp.spdU j),
      born := now, life := PARTICLE_LIFE,
      size := randint 3 7 (inp.szR j),
      color := (255, randint 120 220 (inp.colG j), randint 0 90 (inp.colB j)) }

open scoped Classical in
/-- Particle update (lines 375-387): particles younger than their
lifetime advance by `vel * (1/FPS)` and are damped by 0.99; the rest are
dropped. -/
noncomputable def update_particles (now : ℝ) (ps : List Particle) : List Particle :=
  ps.filterMap fun p =>
    if now - p.born < p.life then
      some { p with
        pos := (p.pos.1 + p.vel.1 * (1 / FPS), p.pos.2 + p.vel.2 * (1 / FPS)),
        vel := (p.vel.1 * 0.99, p.vel.2 * 0.99) }
    else none

/-- Self-collision loop (lines 370-373): `for i in range(9, len(snake))`,
game over when the new head is within `HEAD_RADIUS - 6` of `snake[i]`. -/
noncomputable def selfCollide (head : ℝ × ℝ) (snake : List (ℝ × ℝ)) : Prop :=
  (List.range' 9 (snake.length - 9)).foldr
    (fun i acc =>
      hypot (head.1 - (snake.getD i (0, 0)).1) (head.2 - (snake.getD i (0, 0)).2) <
          HEAD_RADIUS - 6 ∨ acc)
    False

section Frame

variable (W H camH : ℤ)

/-- The target position after the hand-tracking step (lines 320-329):
either the detected landmark scaled to the screen, or a gentle drift of
the previous target toward the screen centre. -/
noncomputable def frameTarget (inp : FrameInput) (s : GameState) : ℤ × ℤ :=
  match inp.hand with
  | some lm => (pyInt (lm.1 * (W : ℝ)), pyInt (lm.2 * (H : ℝ)))
  | none =>
    (pyInt ((s.targetPos.1 : ℝ) * 0.92 + (W : ℝ) * 0.08 * 0.5),
     pyInt ((s.targetPos.2 : ℝ) * 0.92 + (H : ℝ) * 0.08 * 0.5))

open scoped Classical in
/-- The new head position (lines 331-340): step `SNAKE_SPEED` toward the
target when it is more than 1 px away, else stay. -/
noncomputable def frameNewHead (inp : FrameInput) (s : GameState) : ℝ × ℝ :=
  let hx := s.snake.headI.1
  let hy := s.snake.headI.2
  let t := frameTarget W H inp s
  let dx := (t.1 : ℝ) - hx
  let dy := (t.2 : ℝ) - hy
  let dist := hypot dx dy
  if dist > 1 then (hx + dx / dist * SNAKE_SPEED, hy + dy / dist * SNAKE_SPEED)
  else (hx, hy)

/-- Snake update (lines 342-345): insert the new head, pop the tail when
the list exceeds `desired_len = INITIAL_LEN + score`. -/
noncomputable def snakeAfterMove (inp : FrameInput) (s : GameState) : List (ℝ × ℝ) :=
  let snake1 := frameNewHead W H inp s :: s.snake
  if snake1.length > INITIAL_LEN + s.score then snake1.dropLast else snake1

/-- Food-eat condition (line 348). -/
noncomputable def ateCond (inp : FrameInput) (s : GameState) : Prop :=
  let nh := frameNewHead W H inp s
  hypot (nh.1 - (s.food.1 : ℝ)) (nh.2 - (s.food.2 : ℝ)) < FOOD_RADIUS + HEAD_RADIUS

/-- Wall collision (lines 360-361). -/
noncomputable def wallHit (inp : FrameInput) (s : GameState) : Prop :=
  let nh := frameNewHead W H inp s
  nh.1 < 6 ∨ nh.2 < 6 ∨ nh.1 > (W : ℝ) - 6 ∨ nh.2 > (H : ℝ) - 6

/-- Obstacle collision (lines 363-367): the head against each obstacle
shrunk by 16 px in each dimension. -/
noncomputable def obstHit (inp : FrameInput) (s : GameState) : Prop :=
  ∃ r ∈ s.obstacles, head_hits_rect (frameNewHead W H inp s) (r.inflate (-16) (-16))

/-- Timer expiry (lines 305-308): `time_left = max(0, int(TIME_LIMIT -
elapsed))` reaches 0. -/
noncomputable def timerExpired (inp : FrameInput) (s : GameState) : Prop :=
  max 0 (pyInt (TIME_LIMIT - (inp.now - s.startTime))) ≤ 0

open scoped Classical in
/-- One `PAGE_GAME` iteration of the main loop (lines 304-474), paired
with the list of messages it prints.  A failed camera read stops the loop
(`running := false`) after the timer check; otherwise the snake moves,
eats, collides, and the particles advance.  Rendering and sound playback
are not modelled. -/
noncomputable def gameFrame (inp : FrameInput) (s : GameState) : GameState × List Msg :=
  let go1 := s.gameOver ∨ timerExpired inp s
  if inp.camOk = false then
    ({ s with gameOver := go1, running := false }, [Msg.camFrameMissing])
  else
    let snake2 := snakeAfterMove W H inp s
    let ate := ateCond W H inp s
    let go2 := go1 ∨ wallHit W H inp s ∨ obstHit W H inp s ∨
      selfCollide (frameNewHead W H inp s) snake2
    ({ page := if go2 then PAGE_END else s.page,
       score := if ate then s.score + 1 else s.score,
       gameOver := go2,
       running := s.running,
       startTime := s.startTime,
       snake := snake2,
       targetPos := frameTarget W H inp s,
       obstacles := s.obstacles,
       food := if ate then spawn_food W H camH inp.rngFood s.obstacles snake2.headI
               else s.food,
       particles := update_particles inp.now
         (if ate then
            s.particles ++ spawn_explosion (s.food.1 : ℝ) (s.food.2 : ℝ) inp.now inp
          else s.particles) },
     [])

/-- The initial snake (lines 173 and 258). -/
def init_snake : List (ℝ × ℝ) :=
  (List.range INITIAL_LEN).map fun (i : ℕ) =>
    (((W.fdiv 2 - (i : ℤ) * SEG_SPACING : ℤ) : ℝ), ((H.fdiv 2 : ℤ) : ℝ))

/-- `start_game()` (lines 252-262): full reset, fresh obstacles and
food; `rngO` and `rngF` are the randomness streams consumed by
`generate_obstacles` and `spawn_food`, `tNow` is `time.time()`. -/
noncomputable def start_game (rngO rngF : ℕ → ℕ) (tNow : ℝ) (s : GameState) : GameState :=
  let obstacles := generate_obstacles W H rngO OBSTACLE_COUNT
  let snake := init_snake W H
  { page := PAGE_GAME,
    score := 0,
    gameOver := False,
    running := s.running,
    startTime := tNow,
    snake := snake,
    targetPos := (W.fdiv 2, H.fdiv 2),
    obstacles := obstacles,
    food := spawn_food W H camH rngF obstacles snake.headI,
    particles := [] }

/-- The module-level state after lines 165-221: main-menu page with the
initial snake, obstacles and food already generated. -/
noncomputable def initState (rngO rngF : ℕ → ℕ) : GameState :=
  let obstacles := generate_obstacles W H rngO OBSTACLE_COUNT
  let snake := init_snake W H
  { page := PAGE_MAIN,
    score := 0,
    gameOver := False,
    running := true,
    startTime := 0,
    snake := snake,
    targetPos := (W.fdiv 2, H.fdiv 2),
    obstacles := obstacles,
    food := spawn_food W H camH rngF obstacles snake.headI,
    particles := [] }

/-- Reachable game states: the module-level state, a `start_game` reset
(S key / click on `PAGE_MAIN`, R key on any page), and one game-page
frame of the main loop. -/
inductive Reachable : GameState → Prop
  | init (rngO rngF : ℕ → ℕ) : Reachable (initState W H camH rngO rngF)
  | restart (s : GameState) (rngO rngF : ℕ → ℕ) (t : ℝ) (hs : Reachable s) :
      Reachable (start_game W H camH rngO rngF t s)
  | frame (s : GameState) (inp : FrameInput) (hs : Reachable s)
      (hpage : s.page = PAGE_GAME) (hrun : s.running = true) (hv : ValidInput inp) :
      Reachable (gameFrame W H camH inp s).1

/-- The main `while running` loop, restricted to game-page frames (the
menu and end pages only render; events are modelled by `Reachable`).
One fuel unit per iteration; the loop stops as soon as `running` is
false. -/
noncomputable def mainLoop (inps : ℕ → FrameInput) : ℕ → GameState → GameState
  | 0, s => s
  | n + 1, s =>
    if s.running = false then s
    else mainLoop inps n
      (if s.page = PAGE_GAME then (gameFrame W H camH (inps n) s).1 else s)

end Frame

/-! ## Optional assets (`main.py` lines 77-163) -/

/-- An image surface: loaded from disk or the generated START placeholder
(lines 104-111). -/
inductive Img
  | fromDisk
  | startPlaceholder
deriving DecidableEq

/-- A sound: loaded from disk or a synthesized square-wave beep with the
given frequency, duration and volume. -/
inductive Snd
  | fromDisk
  | beep (freq dur vol : ℚ)
deriving DecidableEq

/-- `load_image` (lines 77-87): `None` unless the file exists and loads. -/
def load_image (fileExists loadOk : Bool) : Option Img :=
  if fileExists && loadOk then some .fromDisk else none

/-- `load_sound` (lines 89-96). -/
def load_sound (fileExists loadOk : Bool) : Option Snd :=
  if fileExists && loadOk then some .fromDisk else none

/-- `try_synth_beep` (lines 145-156): returns `None` when synthesis
fails (the `except Exception` branch: numpy missing or the mixer
unavailable), modelled by `synthOk`. -/
def try_synth_beep (synthOk : Bool) (freq dur vol : ℚ) : Option Snd :=
  if synthOk then some (.beep freq dur vol) else none

/-- Start-button fallback (lines 104-111): a placeholder surface is
generated whenever the image is missing. -/
def resolve_start_btn (loaded : Option Img) : Img :=
  match loaded with
  | some img => img
  | none => .startPlaceholder

/-- Sound fallback (lines 158-163): a missing sound is replaced by
`try_synth_beep`, which may itself fail and leave the sound `None`. -/
def resolve_sound (loaded : Option Snd) (synthOk : Bool) (freq dur vol : ℚ) : Option Snd :=
  match loaded with
  | some snd => some snd
  | none => try_synth_beep synthOk freq dur vol

open scoped Classical

/-! ## General lemmas about the frame update -/

theorem foldr_or_iff (l : List ℕ) (P : ℕ → Prop) :
    l.foldr (fun i acc => P i ∨ acc) False ↔ ∃ i ∈ l, P i := by
  induction l with
  | nil => simp
  | cons a l ih =>
    simp only [List.foldr_cons, ih, List.mem_cons]
    constructor
    · rintro (h | ⟨i, hi, hp⟩)
      · exact ⟨a, Or.inl rfl, h⟩
      · exact ⟨i, Or.inr hi, hp⟩
    · rintro ⟨i, rfl | hi, hp⟩
      · exact Or.inl hp
      · exact Or.inr ⟨i, hi, hp⟩

/-- The self-collision loop holds exactly when some segment of index at
least 9 is within `HEAD_RADIUS - 6` of the new head. -/
theorem selfCollide_iff (head : ℝ × ℝ) (snake : List (ℝ × ℝ)) :
    selfCollide head snake ↔
    ∃ i, 9 ≤ i ∧ i < snake.length ∧
      hypot (head.1 - (snake.getD i (0, 0)).1) (head.2 - (snake.getD i (0, 0)).2) <
        HEAD_RADIUS - 6 := by
  unfold selfCollide
  rw [foldr_or_iff]
  constructor
  · rintro ⟨i, hi, hp⟩
    rw [List.mem_range'_1] at hi
    exact ⟨i, hi.1, by omega, hp⟩
  · rintro ⟨i, h9, hlen, hp⟩
    exact ⟨i, List.mem_range'_1.mpr ⟨h9, by omega⟩, hp⟩

/-- A snake shorter than 10 segments can never self-collide. -/
theorem selfCollide_short (head : ℝ × ℝ) (snake : List (ℝ × ℝ))
    (h : snake.length ≤ 9) : ¬ selfCollide head snake := by
  rw [selfCollide_iff]
  rintro ⟨i, h9, hlen, _⟩
  omega

section FrameLemmas

variable (W H camH : ℤ)

theorem gameFrame_camFail (inp : FrameInput) (s : GameState) (h : inp.camOk = false) :
    gameFrame W H camH inp s =
    ({ s with gameOver := s.gameOver ∨ timerExpired inp s, running := false },
     [Msg.camFrameMissing]) := by
  unfold gameFrame
  rw [if_pos h]

theorem gameFrame_ok (inp : FrameInput) (s : GameState) (h : inp.camOk = true) :
    gameFrame W H camH inp s =
    ({ page := if (s.gameOver ∨ timerExpired inp s) ∨ wallHit W H inp s ∨
           obstHit W H inp s ∨
           selfCollide (frameNewHead W H inp s) (snakeAfterMove W H inp s) then PAGE_END
         else s.page,
       score := if ateCond W H inp s then s.score + 1 else s.score,
       gameOver := (s.gameOver ∨ timerExpired inp s) ∨ wallHit W H inp s ∨
         obstHit W H inp s ∨
         selfCollide (frameNewHead W H inp s) (snakeAfterMove W H inp s),
       running := s.running,
       startTime := s.startTime,
       snake := snakeAfterMove W H inp s,
       targetPos := frameTarget W H inp s,
       obstacles := s.obstacles,
       food := if ateCond W H inp s then
           spawn_food W H camH inp.rngFood s.obstacles (snakeAfterMove W H inp s).headI
         else s.food,
       particles := update_particles inp.now
         (if ateCond W H inp s then
            s.particles ++ spawn_explosion (s.food.1 : ℝ) (s.food.2 : ℝ) inp.now inp
          else s.particles) },
     []) := by
  unfold gameFrame
  rw [if_neg (by simp [h])]

/-! ## The length invariant (claim C1) -/

/-- The snake holds `INITIAL_LEN + score` segments, except for one frame
right after an eat, where it is one short. -/
def LenInv (s : GameState) : Prop :=
  s.snake.length = INITIAL_LEN + s.score ∨
  s.snake.length + 1 = INITIAL_LEN + s.score

theorem init_snake_length : (init_snake W H).length = INITIAL_LEN := by
  unfold init_snake
  rw [List.length_map, List.length_range]

/-- After head insertion and tail pop (but before the eat check) the
snake always has exactly `INITIAL_LEN + score` segments. -/
theorem snakeAfterMove_length (inp : FrameInput) (s : GameState) (h : LenInv s) :
    (snakeAfterMove W H inp s).length = INITIAL_LEN + s.score := by
  unfold snakeAfterMove
  rcases h with h | h
  · rw [if_pos (by simp [h])]
    simp [List.length_dropLast, h]
  · rw [if_neg (by simp; omega)]
    simp
    omega

theorem reachable_LenInv (s : GameState) (h : Reachable W H camH s) : LenInv s := by
  induction h with
  | init rngO rngF =>
    left
    simp [initState, init_snake_length]
  | restart s rngO rngF t hs ih =>
    left
    simp [start_game, init_snake_length]
  | frame s inp hs hpage hrun hv ih =>
    by_cases hcam : inp.camOk = true
    · rw [gameFrame_ok W H camH inp s hcam]
      unfold LenInv
      simp only
      rw [snakeAfterMove_length W H inp s ih]
      by_cases hate : ateCond W H inp s
      · rw [if_pos hate]
        right
        omega
      · rw [if_neg hate]
        left
        rfl
    · rw [gameFrame_camFail W H camH inp s (by simpa using hcam)]
      exact ih

end FrameLemmas

/-! ## A concrete game configuration

Screen 640 × 240 (`WIN_W, WIN_H = screen.get_size()`), camera preview
height 90.  The randomness streams below drive `generate_obstacles` and
`spawn_food` through specific, fully legal draw sequences. -/

def W0 : ℤ := 640
def H0 : ℤ := 240
def camH0 : ℤ := 90

/-- An obstacle away from the screen centre. -/
def r_far : Rect := ⟨500, 170, 40, 40⟩

/-- An obstacle covering the fallback food point. -/
def r_mid : Rect := ⟨300, 120, 90, 90⟩

/-- Obstacle stream: every try draws `r_far`, so the first try is
accepted and every later candidate collides with it. -/
def rngO0 : ℕ → ℕ := fun i =>
  if i % 4 = 0 then 0 else if i % 4 = 1 then 0 else if i % 4 = 2 then 470 else 50

/-- Obstacle stream: every try draws `r_mid`. -/
def rngO2 : ℕ → ℕ := fun i =>
  if i % 4 = 0 then 50 else if i % 4 = 1 then 50 else if i % 4 = 2 then 270 else 0

/-- Food stream: all 800 tries draw the screen centre `(320, 120)`
(rejected, being 0 px from the snake head), and the fallback draw is
offset 0. -/
def rngF0 : ℕ → ℕ := fun i =>
  if i = 1600 then 120 else if i % 2 = 0 then 260 else 0

/-- Food stream whose first try draws `(60, 180)`. -/
def rngF1 : ℕ → ℕ := fun i => if i = 1 then 60 else 0

theorem spawn_min_y_camH0 : spawn_min_y camH0 = 120 := by decide

/-- One unfolding step of the obstacle loop, for concrete fuel values. -/
theorem obstacles_loop_succ_eq (W H : ℤ) (rng : ℕ → ℕ) (count fuel t : ℕ)
    (rects : List Rect) :
    obstacles_loop W H rng count (fuel + 1) t rects =
    if rects.length < count then
      (if obs_ok (obs_try W H rng t) rects then
        obstacles_loop W H rng count fuel (t + 1) (rects ++ [obs_try W H rng t])
      else obstacles_loop W H rng count fuel (t + 1) rects)
    else rects := rfl

/-- One unfolding step of the food loop, for concrete fuel values. -/
theorem spawn_food_loop_succ_eq (W H camH : ℤ) (rng : ℕ → ℕ) (obst : List Rect)
    (head : ℝ × ℝ) (fuel k : ℕ) :
    spawn_food_loop W H camH rng obst head (fuel + 1) k =
    if food_accept obst head (food_try W H camH rng k) then
      some (food_try W H camH rng k)
    else spawn_food_loop W H camH rng obst head fuel (k + 1) := rfl

theorem obs_try_O0 (t : ℕ) : obs_try W0 H0 rngO0 t = r_far := by
  have h0 : rngO0 (4 * t) = 0 := by simp [rngO0, Nat.mul_mod_right]
  have h1 : rngO0 (4 * t + 1) = 0 := by simp [rngO0, Nat.mul_add_mod]
  have h2 : rngO0 (4 * t + 2) = 470 := by simp [rngO0, Nat.mul_add_mod]
  have h3 : rngO0 (4 * t + 3) = 50 := by simp [rngO0, Nat.mul_add_mod]
  simp only [obs_try, h0, h1, h2, h3]
  decide

theorem obs_try_O2 (t : ℕ) : obs_try W0 H0 rngO2 t = r_mid := by
  have h0 : rngO2 (4 * t) = 50 := by simp [rngO2, Nat.mul_mod_right]
  have h1 : rngO2 (4 * t + 1) = 50 := by simp [rngO2, Nat.mul_add_mod]
  have h2 : rngO2 (4 * t + 2) = 270 := by simp [rngO2, Nat.mul_add_mod]
  have h3 : rngO2 (4 * t + 3) = 0 := by simp [rngO2, Nat.mul_add_mod]
  simp only [obs_try, h0, h1, h2, h3]
  decide

theorem gen_obs_O0 : generate_obstacles W0 H0 rngO0 OBSTACLE_COUNT = [r_far] := by
  unfold generate_obstacles
  rw [show (400 : ℕ) = 399 + 1 by norm_num, obstacles_loop_succ_eq]
  rw [if_pos (by decide : ([] : List Rect).length < OBSTACLE_COUNT), obs_try_O0 0,
    if_pos (by simp [obs_ok] : obs_ok r_far []), List.nil_append]
  refine obstacles_loop_stuck W0 H0 rngO0 OBSTACLE_COUNT 399 1 [r_far] ?_
  intro j _ hok
  rw [obs_try_O0 j] at hok
  exact hok r_far (List.mem_singleton_self r_far) (by decide)

theorem gen_obs_O2 : generate_obstacles W0 H0 rngO2 OBSTACLE_COUNT = [r_mid] := by
  unfold generate_obstacles
  rw [show (400 : ℕ) = 399 + 1 by norm_num, obstacles_loop_succ_eq]
  rw [if_pos (by decide : ([] : List Rect).length < OBSTACLE_COUNT), obs_try_O2 0,
    if_pos (by simp [obs_ok] : obs_ok r_mid []), List.nil_append]
  refine obstacles_loop_stuck W0 H0 rngO2 OBSTACLE_COUNT 399 1 [r_mid] ?_
  intro j _ hok
  rw [obs_try_O2 j] at hok
  exact hok r_mid (List.mem_singleton_self r_mid) (by decide)

theorem food_try_F0 (k : ℕ) (hk : k < 800) :
    food_try W0 H0 camH0 rngF0 k = (320, 120) := by
  have h0 : rngF0 (2 * k) = 260 := by
    have hne : 2 * k ≠ 1600 := by omega
    simp [rngF0, hne, Nat.mul_mod_right]
  have h1 : rngF0 (2 * k + 1) = 0 := by
    have hne : 2 * k + 1 ≠ 1600 := by omega
    simp [rngF0, hne, Nat.mul_add_mod]
  simp only [food_try, h0, h1, spawn_min_y_camH0]
  decide

/-- The centre point is always rejected: it is 0 px from the head. -/
theorem food_reject_centre (obst : List Rect) :
    ¬ food_accept obst ((320 : ℝ), (120 : ℝ)) (320, 120) := by
  intro h
  apply h.2
  norm_num [hypot, Real.sqrt_zero]

/-- With stream `rngF0` all 800 tries are rejected and `spawn_food`
falls back to the (obstacle-unchecked) centre point. -/
theorem spawn_food_F0 (obst : List Rect) :
    spawn_food W0 H0 camH0 rngF0 obst ((320 : ℝ), (120 : ℝ)) = (320, 120) := by
  rw [spawn_food_fallback W0 H0 camH0 rngF0 obst _
    (fun j hj => by rw [food_try_F0 j hj]; exact food_reject_centre obst)]
  rw [show rngF0 1600 = 120 by simp [rngF0], spawn_min_y_camH0]
  decide

theorem food_try_F1 : food_try W0 H0 camH0 rngF1 0 = (60, 180) := by
  simp only [food_try, spawn_min_y_camH0]
  rw [show rngF1 (2 * 0) = 0 by simp [rngF1], show rngF1 (2 * 0 + 1) = 60 by simp [rngF1]]
  decide

theorem food_accept_F1 : food_accept [r_far] ((320 : ℝ), (120 : ℝ)) (60, 180) := by
  constructor
  · rintro ⟨r, hr, hpt⟩
    rw [List.mem_singleton] at hr
    subst hr
    revert hpt
    decide
  · rw [hypot_lt_iff _ _ _ (by norm_num)]
    push_cast
    norm_num

theorem spawn_food_loop_F1 :
    spawn_food_loop W0 H0 camH0 rngF1 [r_far] ((320 : ℝ), (120 : ℝ)) 800 0 =
      some (60, 180) := by
  rw [show (800 : ℕ) = 799 + 1 by norm_num, spawn_food_loop_succ_eq]
  rw [food_try_F1, if_pos food_accept_F1]

theorem spawn_food_F1 :
    spawn_food W0 H0 camH0 rngF1 [r_far] ((320 : ℝ), (120 : ℝ)) = (60, 180) := by
  unfold spawn_food
  rw [spawn_food_loop_F1]

theorem init_snake_eval : init_snake W0 H0 =
    [((320 : ℝ), (120 : ℝ)), (308, 120), (296, 120), (284, 120), (272, 120),
     (260, 120), (248, 120)] := by
  have h640 : (W0).fdiv 2 = 320 := by decide
  have h240 : (H0).fdiv 2 = 120 := by decide
  unfold init_snake
  rw [show List.range INITIAL_LEN = [0, 1, 2, 3, 4, 5, 6] from rfl]
  simp only [List.map_cons, List.map_nil, h640, h240, SEG_SPACING]
  norm_num

/-! ## A concrete run of the game

With streams `rngO0`/`rngF0` the game starts with the single obstacle
`r_far`, the snake at the centre of the 640 × 240 screen, and — after 800
rejected tries — the fallback food exactly on the snake's head.  The hand
is held at the centre, so the head never moves; frame 1 eats the food and
spawns 18 identical particles moving straight down at 420 px/s, which
frames 2-9 advance until they leave the screen. -/

theorem range_map_const {α : Type} (n : ℕ) (f : ℕ → α) (c : α) (h : ∀ j, f j = c) :
    (List.range n).map f = List.replicate n c := by
  induction n with
  | zero => simp
  | succ m ih =>
    rw [List.range_succ, List.map_append, ih, List.map_cons, List.map_nil, h m,
      List.replicate_succ']

theorem filterMap_replicate {α β : Type} (n : ℕ) (f : α → Option β) (a : α) (b : β)
    (h : f a = some b) : (List.replicate n a).filterMap f = List.replicate n b := by
  induction n with
  | zero => simp
  | succ m ih => rw [List.replicate_succ, List.filterMap_cons, h, ih, List.replicate_succ]

theorem cos_ang_three_quarters : Real.cos ((3 / 4 : ℝ) * 2 * Real.pi) = 0 := by
  rw [show (3 / 4 : ℝ) * 2 * Real.pi = Real.pi + Real.pi / 2 by ring, Real.cos_add]
  simp

theorem sin_ang_three_quarters : Real.sin ((3 / 4 : ℝ) * 2 * Real.pi) = -1 := by
  rw [show (3 / 4 : ℝ) * 2 * Real.pi = Real.pi + Real.pi / 2 by ring, Real.sin_add]
  simp

/-- The timer has not expired while less than 59 s have elapsed. -/
theorem timer_alive (inp : FrameInput) (s : GameState)
    (h59 : inp.now - s.startTime ≤ 59) :
    ¬ timerExpired inp s := by
  unfold timerExpired
  rw [max_le_iff]
  rintro ⟨-, h2⟩
  rw [pyInt_le_zero_iff _ (by unfold TIME_LIMIT; linarith)] at h2
  unfold TIME_LIMIT at h2
  linarith

/-- The frame input of trace frame `k`: clock `k/30`, hand held at the
screen centre, food-respawn stream `rngF1`, all particles shot straight
down (`random() = 3/4`, i.e. angle `3π/2`) at speed 420. -/
noncomputable def inpT (k : ℕ) : FrameInput :=
  { now := (k : ℝ) / 30, camOk := true, hand := some (1 / 2, 1 / 2),
    rngFood := rngF1, angU := fun _ => 3 / 4, spdU := fun _ => 420,
    szR := fun _ => 0, colG := fun _ => 0, colB := fun _ => 0 }

theorem inpT_valid (k : ℕ) : ValidInput (inpT k) := by
  constructor <;> intro j <;> constructor <;> norm_num [inpT]

/-- The state right after pressing S on the menu of the concrete game. -/
noncomputable def cs1 : GameState :=
  start_game W0 H0 camH0 rngO0 rngF0 0 (initState W0 H0 camH0 rngO0 rngF0)

/-- The concrete run: `traceState k` is the state after `k` game frames. -/
noncomputable def traceState : ℕ → GameState
  | 0 => cs1
  | k + 1 => (gameFrame W0 H0 camH0 (inpT (k + 1)) (traceState k)).1

theorem cs1_page : cs1.page = PAGE_GAME := rfl

theorem cs1_score : cs1.score = 0 := rfl

theorem cs1_gameOver : ¬ cs1.gameOver := fun h => h

theorem cs1_running : cs1.running = true := rfl

theorem cs1_startTime : cs1.startTime = 0 := rfl

theorem cs1_particles : cs1.particles = [] := rfl

theorem cs1_snake : cs1.snake =
    [((320 : ℝ), (120 : ℝ)), (308, 120), (296, 120), (284, 120), (272, 120),
     (260, 120), (248, 120)] := by
  simp only [cs1, start_game]
  exact init_snake_eval

theorem cs1_obstacles : cs1.obstacles = [r_far] := by
  simp only [cs1, start_game]
  exact gen_obs_O0

theorem cs1_food : cs1.food = (320, 120) := by
  simp only [cs1, start_game]
  rw [gen_obs_O0, init_snake_eval]
  exact spawn_food_F0 [r_far]

theorem frameTarget_inpT (k : ℕ) (s : GameState) :
    frameTarget W0 H0 (inpT k) s = (320, 120) := by
  show (pyInt ((1 / 2 : ℝ) * ((W0 : ℤ) : ℝ)), pyInt ((1 / 2 : ℝ) * ((H0 : ℤ) : ℝ))) = _
  rw [show (1 / 2 : ℝ) * ((W0 : ℤ) : ℝ) = ((320 : ℤ) : ℝ) by norm_num [W0],
    show (1 / 2 : ℝ) * ((H0 : ℤ) : ℝ) = ((120 : ℤ) : ℝ) by norm_num [H0],
    pyInt_intCast, pyInt_intCast]

/-- With the hand at the centre and the head at the centre, the head does
not move (the `dist > 1` test fails). -/
theorem frameNewHead_static (k : ℕ) (s : GameState)
    (hh : s.snake.headI = ((320 : ℝ), (120 : ℝ))) :
    frameNewHead W0 H0 (inpT k) s = ((320 : ℝ), (120 : ℝ)) := by
  unfold frameNewHead
  rw [frameTarget_inpT k s, hh]
  simp only
  rw [show ((320 : ℤ) : ℝ) - 320 = 0 by push_cast; ring,
    show ((120 : ℤ) : ℝ) - 120 = 0 by push_cast; ring, hypot_zero]
  rw [if_neg (by norm_num)]

theorem snakeAfterMove_step (k : ℕ) (s : GameState)
    (hh : s.snake.headI = ((320 : ℝ), (120 : ℝ))) (hsc : s.score = 1)
    (hlen : s.snake.length = 7 ∨ s.snake.length = 8) :
    (snakeAfterMove W0 H0 (inpT k) s).headI = ((320 : ℝ), (120 : ℝ)) ∧
    (snakeAfterMove W0 H0 (inpT k) s).length = 8 := by
  unfold snakeAfterMove
  rw [frameNewHead_static k s hh, hsc]
  simp only [List.length_cons]
  rcases hlen with h | h
  · rw [if_neg (by rw [h]; norm_num [INITIAL_LEN])]
    exact ⟨rfl, by simp [h]⟩
  · rw [if_pos (by rw [h]; norm_num [INITIAL_LEN])]
    obtain ⟨b, l, hbl⟩ : ∃ b l, s.snake = b :: l := by
      cases hsn : s.snake with
      | nil => rw [hsn] at h; simp at h
      | cons b l => exact ⟨b, l, rfl⟩
    rw [hbl]
    rw [hbl] at h
    rw [List.dropLast_cons₂]
    refine ⟨rfl, ?_⟩
    simp only [List.length_cons, List.length_dropLast] at h ⊢
    omega

theorem not_ate_step (k : ℕ) (s : GameState)
    (hh : s.snake.headI = ((320 : ℝ), (120 : ℝ))) (hf : s.food = (60, 180)) :
    ¬ ateCond W0 H0 (inpT k) s := by
  unfold ateCond
  rw [frameNewHead_static k s hh, hf]
  simp only
  rw [hypot_lt_iff _ _ _ (by norm_num [FOOD_RADIUS, HEAD_RADIUS])]
  push_cast
  norm_num [FOOD_RADIUS, HEAD_RADIUS]

theorem not_wall_step (k : ℕ) (s : GameState)
    (hh : s.snake.headI = ((320 : ℝ), (120 : ℝ))) :
    ¬ wallHit W0 H0 (inpT k) s := by
  unfold wallHit
  rw [frameNewHead_static k s hh]
  simp only [W0, H0]
  push_cast
  norm_num

theorem not_hit_far : ¬ head_hits_rect ((320 : ℝ), (120 : ℝ)) (r_far.inflate (-16) (-16)) := by
  rw [show r_far.inflate (-16) (-16) = ⟨508, 178, 24, 24⟩ by decide]
  unfold head_hits_rect clamp
  simp only
  push_cast
  rw [show min (532 : ℝ) 320 = 320 from min_eq_right (by norm_num),
    show max (508 : ℝ) 320 = 508 from max_eq_left (by norm_num),
    show min (202 : ℝ) 120 = 120 from min_eq_right (by norm_num),
    show max (178 : ℝ) 120 = 178 from max_eq_left (by norm_num)]
  rw [hypot_lt_iff _ _ _ (by norm_num [HEAD_RADIUS])]
  norm_num [HEAD_RADIUS]

theorem not_obst_step (k : ℕ) (s : GameState)
    (hh : s.snake.headI = ((320 : ℝ), (120 : ℝ))) (ho : s.obstacles = [r_far]) :
    ¬ obstHit W0 H0 (inpT k) s := by
  unfold obstHit
  rw [frameNewHead_static k s hh, ho]
  rintro ⟨r, hr, hhit⟩
  rw [List.mem_singleton] at hr
  subst hr
  exact not_hit_far hhit

/-- The particle each trace explosion produces. -/
noncomputable def tracePart (y v : ℝ) : Particle :=
  { pos := ((320 : ℝ), y), vel := (0, v), born := 1 / 30, life := PARTICLE_LIFE,
    size := 3, color := (255, 120, 0) }

theorem spawn_explosion_inpT (x y now : ℝ) (k : ℕ) :
    spawn_explosion x y now (inpT k) = List.replicate 18
      { pos := (x, y), vel := ((0 : ℝ), (-420 : ℝ)), born := now, life := PARTICLE_LIFE,
        size := 3, color := (255, 120, 0) } := by
  unfold spawn_explosion
  rw [show PARTICLE_COUNT = 18 from rfl]
  apply range_map_const
  intro j
  simp only [inpT]
  rw [cos_ang_three_quarters, sin_ang_three_quarters]
  rw [show randint 3 7 0 = 3 by decide, show randint 120 220 0 = 120 by decide,
    show randint 0 90 0 = 0 by decide]
  norm_num

theorem update_tracePart (now y v : ℝ) (h : now - 1 / 30 < PARTICLE_LIFE) :
    update_particles now (List.replicate 18 (tracePart y v)) =
    List.replicate 18 (tracePart (y + v * (1 / 30)) (v * 0.99)) := by
  unfold update_particles
  apply filterMap_replicate
  rw [if_pos (by exact h)]
  unfold tracePart
  simp only [Option.some.injEq]
  norm_num [FPS]

/-- The invariant of trace states 1-9: the head parked at the centre,
score 1, food at `(60, 180)`, and 18 copies of one particle at height `y`
with vertical speed `v`. -/
noncomputable def TraceInv (y v : ℝ) (s : GameState) : Prop :=
  s.page = PAGE_GAME ∧ s.running = true ∧ s.score = 1 ∧ (¬ s.gameOver) ∧
  s.snake.headI = ((320 : ℝ), (120 : ℝ)) ∧
  (s.snake.length = 7 ∨ s.snake.length = 8) ∧
  s.food = (60, 180) ∧ s.obstacles = [r_far] ∧ s.startTime = 0 ∧
  s.particles = List.replicate 18 (tracePart y v)


/-- One generic trace step: frame `k + 1` (for `1 ≤ k ≤ 8`) keeps the
head parked, eats nothing, trips no collision, and advances the 18
particles by one tick. -/
theorem trace_step (k : ℕ) (hk1 : 1 ≤ k) (hk8 : k ≤ 8) (y v : ℝ) (s : GameState)
    (h : TraceInv y v s) :
    TraceInv (y + v * (1 / 30)) (v * 0.99) ((gameFrame W0 H0 camH0 (inpT (k + 1)) s).1) := by
  obtain ⟨hpage, hrun, hscore, hgo, hhead, hlen, hfood, hobs, hstart, hparts⟩ := h
  have hsam := snakeAfterMove_step (k + 1) s hhead hscore hlen
  have hate := not_ate_step (k + 1) s hhead hfood
  have hwall := not_wall_step (k + 1) s hhead
  have hobst := not_obst_step (k + 1) s hhead hobs
  have hself : ¬ selfCollide (frameNewHead W0 H0 (inpT (k + 1)) s)
      (snakeAfterMove W0 H0 (inpT (k + 1)) s) :=
    selfCollide_short _ _ (by rw [hsam.2]; norm_num)
  have htimer : ¬ timerExpired (inpT (k + 1)) s := by
    apply timer_alive
    rw [hstart, sub_zero]
    show ((k + 1 : ℕ) : ℝ) / 30 ≤ 59
    have : ((k + 1 : ℕ) : ℝ) ≤ 9 := by exact_mod_cast by omega
    linarith
  have hgo2 : ¬ ((s.gameOver ∨ timerExpired (inpT (k + 1)) s) ∨
      wallHit W0 H0 (inpT (k + 1)) s ∨ obstHit W0 H0 (inpT (k + 1)) s ∨
      selfCollide (frameNewHead W0 H0 (inpT (k + 1)) s)
        (snakeAfterMove W0 H0 (inpT (k + 1)) s)) := by
    rintro ((h1 | h1) | h1 | h1 | h1)
    · exact hgo h1
    · exact htimer h1
    · exact hwall h1
    · exact hobst h1
    · exact hself h1
  rw [gameFrame_ok W0 H0 camH0 (inpT (k + 1)) s rfl]
  refine ⟨?_, ?_, ?_, ?_, ?_, ?_, ?_, ?_, ?_, ?_⟩
  · show (if _ then PAGE_END else s.page) = PAGE_GAME
    rw [if_neg hgo2, hpage]
  · exact hrun
  · show (if ateCond W0 H0 (inpT (k + 1)) s then s.score + 1 else s.score) = 1
    rw [if_neg hate, hscore]
  · exact hgo2
  · exact hsam.1
  · exact Or.inr hsam.2
  · show (if ateCond W0 H0 (inpT (k + 1)) s then _ else s.food) = (60, 180)
    rw [if_neg hate, hfood]
  · exact hobs
  · exact hstart
  · show update_particles (inpT (k + 1)).now
        (if ateCond W0 H0 (inpT (k + 1)) s then _ else s.particles) =
      List.replicate 18 (tracePart (y + v * (1 / 30)) (v * 0.99))
    rw [if_neg hate, hparts]
    apply update_tracePart
    show ((k + 1 : ℕ) : ℝ) / 30 - 1 / 30 < PARTICLE_LIFE
    unfold PARTICLE_LIFE
    have hc : (k : ℝ) ≤ 8 := by exact_mod_cast hk8
    push_cast
    norm_num
    linarith


theorem cs1_head : cs1.snake.headI = ((320 : ℝ), (120 : ℝ)) := by
  rw [cs1_snake]
  rfl

theorem ate_start : ateCond W0 H0 (inpT 1) cs1 := by
  unfold ateCond
  rw [frameNewHead_static 1 cs1 cs1_head, cs1_food]
  simp only
  rw [show (320 : ℝ) - ((320 : ℤ) : ℝ) = 0 by push_cast; ring,
    show (120 : ℝ) - ((120 : ℤ) : ℝ) = 0 by push_cast; ring, hypot_zero]
  norm_num [FOOD_RADIUS, HEAD_RADIUS]

theorem snakeAfterMove_start : snakeAfterMove W0 H0 (inpT 1) cs1 =
    [((320 : ℝ), (120 : ℝ)), (320, 120), (308, 120), (296, 120), (284, 120),
     (272, 120), (260, 120)] := by
  unfold snakeAfterMove
  rw [frameNewHead_static 1 cs1 cs1_head, cs1_snake, cs1_score]
  rw [if_pos (by simp [INITIAL_LEN])]
  rfl

theorem spawned_particle_eq :
    ({ pos := (((320 : ℤ) : ℝ), ((120 : ℤ) : ℝ)), vel := ((0 : ℝ), (-420 : ℝ)),
       born := ((1 : ℕ) : ℝ) / 30, life := PARTICLE_LIFE, size := 3,
       color := (255, 120, 0) } : Particle) = tracePart 120 (-420) := by
  unfold tracePart
  norm_num

set_option maxRecDepth 8000 in
/-- Frame 1 of the concrete run: the snake eats the food sitting on its
head, the score becomes 1, the food respawns at `(60, 180)`, and 18
particles start falling at 420 px/s from the eaten food. -/
theorem trace_start :
    TraceInv (120 + (-420 : ℝ) * (1 / 30)) ((-420 : ℝ) * 0.99) (traceState 1) ∧
    (traceState 1).snake =
      [((320 : ℝ), (120 : ℝ)), (320, 120), (308, 120), (296, 120), (284, 120),
       (272, 120), (260, 120)] := by
  have hframe : traceState 1 = (gameFrame W0 H0 camH0 (inpT 1) cs1).1 := rfl
  have hwall := not_wall_step 1 cs1 cs1_head
  have hobst := not_obst_step 1 cs1 cs1_head cs1_obstacles
  have hself : ¬ selfCollide (frameNewHead W0 H0 (inpT 1) cs1)
      (snakeAfterMove W0 H0 (inpT 1) cs1) := by
    apply selfCollide_short
    rw [snakeAfterMove_start]
    simp
  have htimer : ¬ timerExpired (inpT 1) cs1 := by
    apply timer_alive
    rw [cs1_startTime, sub_zero]
    show ((1 : ℕ) : ℝ) / 30 ≤ 59
    norm_num
  have hgo2 : ¬ ((cs1.gameOver ∨ timerExpired (inpT 1) cs1) ∨
      wallHit W0 H0 (inpT 1) cs1 ∨ obstHit W0 H0 (inpT 1) cs1 ∨
      selfCollide (frameNewHead W0 H0 (inpT 1) cs1)
        (snakeAfterMove W0 H0 (inpT 1) cs1)) := by
    rintro ((h1 | h1) | h1 | h1 | h1)
    exacts [cs1_gameOver h1, htimer h1, hwall h1, hobst h1, hself h1]
  rw [hframe, gameFrame_ok W0 H0 camH0 (inpT 1) cs1 rfl]
  constructor
  · refine ⟨?_, ?_, ?_, ?_, ?_, ?_, ?_, ?_, ?_, ?_⟩
    · show (if _ then PAGE_END else cs1.page) = PAGE_GAME
      rw [if_neg hgo2, cs1_page]
    · exact cs1_running
    · show (if ateCond W0 H0 (inpT 1) cs1 then cs1.score + 1 else cs1.score) = 1
      rw [if_pos ate_start, cs1_score]
    · exact hgo2
    · rw [snakeAfterMove_start]
      rfl
    · rw [snakeAfterMove_start]
      left
      rfl
    · show (if ateCond W0 H0 (inpT 1) cs1 then
          spawn_food W0 H0 camH0 (inpT 1).rngFood cs1.obstacles
            (snakeAfterMove W0 H0 (inpT 1) cs1).headI
        else cs1.food) = (60, 180)
      rw [if_pos ate_start, cs1_obstacles, snakeAfterMove_start]
      rw [show ([((320 : ℝ), (120 : ℝ)), (320, 120), (308, 120), (296, 120), (284, 120),
        (272, 120), (260, 120)] : List (ℝ × ℝ)).headI = ((320 : ℝ), (120 : ℝ)) from rfl,
        show (inpT 1).rngFood = rngF1 from rfl]
      exact spawn_food_F1
    · exact cs1_obstacles
    · exact cs1_startTime
    · show update_particles (inpT 1).now
          (if ateCond W0 H0 (inpT 1) cs1 then
            cs1.particles ++
              spawn_explosion ((cs1.food.1 : ℤ) : ℝ) ((cs1.food.2 : ℤ) : ℝ)
                (inpT 1).now (inpT 1)
          else cs1.particles) =
        List.replicate 18 (tracePart (120 + (-420 : ℝ) * (1 / 30)) ((-420 : ℝ) * 0.99))
      rw [if_pos ate_start, cs1_particles, cs1_food, List.nil_append]
      rw [show ((320, 120) : ℤ × ℤ).1 = 320 from rfl,
        show ((320, 120) : ℤ × ℤ).2 = 120 from rfl,
        show (inpT 1).now = ((1 : ℕ) : ℝ) / 30 from rfl]
      rw [spawn_explosion_inpT, spawned_particle_eq]
      apply update_tracePart
      show ((1 : ℕ) : ℝ) / 30 - 1 / 30 < PARTICLE_LIFE
      norm_num [PARTICLE_LIFE]
  · rw [snakeAfterMove_start]


theorem reachable_cs1 : Reachable W0 H0 camH0 cs1 :=
  Reachable.restart _ rngO0 rngF0 0 (Reachable.init rngO0 rngF0)

/-- Vertical particle speed after `k` frames of damping. -/
noncomputable def traceV : ℕ → ℝ
  | 0 => -420
  | k + 1 => traceV k * 0.99

/-- Particle height after `k` frames. -/
noncomputable def traceY : ℕ → ℝ
  | 0 => 120
  | k + 1 => traceY k + traceV k * (1 / 30)

/-- Frames 1-9 of the concrete run: invariant and reachability. -/
theorem trace_chain (k : ℕ) (h1 : 1 ≤ k) (h9 : k ≤ 9) :
    TraceInv (traceY k) (traceV k) (traceState k) ∧
    Reachable W0 H0 camH0 (traceState k) := by
  induction k with
  | zero => omega
  | succ m ih =>
    rcases Nat.eq_zero_or_pos m with hm | hm
    · subst hm
      refine ⟨trace_start.1, ?_⟩
      exact Reachable.frame cs1 (inpT 1) reachable_cs1 cs1_page cs1_running (inpT_valid 1)
    · have hm9 : m ≤ 9 := by omega
      obtain ⟨hinv, hreach⟩ := ih hm hm9
      refine ⟨trace_step m hm (by omega) (traceY m) (traceV m) (traceState m) hinv, ?_⟩
      exact Reachable.frame (traceState m) (inpT (m + 1)) hreach hinv.1 hinv.2.1
        (inpT_valid (m + 1))

/-- After nine frames the particles are above the top of the screen. -/
theorem traceY_nine_neg : traceY 9 < 0 := by
  have hv : ∀ k, traceV k = -420 * (0.99 : ℝ) ^ k := by
    intro k
    induction k with
    | zero => simp [traceV]
    | succ m ih =>
      simp only [traceV, ih]
      ring
  have hy : ∀ k, traceY k = 120 - 14 * ∑ j ∈ Finset.range k, (0.99 : ℝ) ^ j := by
    intro k
    induction k with
    | zero => simp [traceY]
    | succ m ih =>
      simp only [traceY, ih, hv m, Finset.sum_range_succ]
      ring
  rw [hy 9, geom_sum_eq (by norm_num) 9]
  norm_num


/-! ## Remaining helpers for the claims -/

theorem init_snake_getD (W H : ℤ) (i : ℕ) (h : i < INITIAL_LEN) :
    (init_snake W H).getD i (0, 0) =
    (((W.fdiv 2 - (i : ℤ) * SEG_SPACING : ℤ) : ℝ), ((H.fdiv 2 : ℤ) : ℝ)) := by
  unfold init_snake
  rw [List.getD_eq_getElem _ _ (by rw [List.length_map, List.length_range]; exact h)]
  rw [List.getElem_map, List.getElem_range]

theorem start_game_snake (W H camH : ℤ) (rngO rngF : ℕ → ℕ) (t : ℝ) (s : GameState) :
    (start_game W H camH rngO rngF t s).snake = init_snake W H := rfl

/-- Adjacent segments of the freshly initialised snake. -/
theorem init_snake_adjacent (W H : ℤ) (i : ℕ) (h : i + 1 < INITIAL_LEN) :
    hypot (((init_snake W H).getD i (0, 0)).1 - ((init_snake W H).getD (i + 1) (0, 0)).1)
      (((init_snake W H).getD i (0, 0)).2 - ((init_snake W H).getD (i + 1) (0, 0)).2) =
    (SEG_SPACING : ℝ) := by
  rw [init_snake_getD W H i (by omega), init_snake_getD W H (i + 1) h]
  simp only
  rw [show ((H.fdiv 2 : ℤ) : ℝ) - ((H.fdiv 2 : ℤ) : ℝ) = 0 by ring]
  rw [show ((W.fdiv 2 - (i : ℤ) * SEG_SPACING : ℤ) : ℝ) -
      ((W.fdiv 2 - ((i + 1 : ℕ) : ℤ) * SEG_SPACING : ℤ) : ℝ) = (SEG_SPACING : ℝ) by
    push_cast
    ring]
  exact hypot_of_nonneg_left _ (by norm_num [SEG_SPACING])


/-! ## The claims -/

/-- Claim C1 counterexample: on the frame that eats the food, the snake
has one segment fewer than `INITIAL_LEN + score` after the update. -/
theorem C1_counterexample :
    Reachable W0 H0 camH0 (traceState 1) ∧
    (traceState 1).snake.length ≠ INITIAL_LEN + (traceState 1).score := by
  obtain ⟨hinv, hsnake⟩ := trace_start
  refine ⟨(trace_chain 1 le_rfl (by omega)).2, ?_⟩
  rw [hsnake, hinv.2.2.1]
  simp [INITIAL_LEN]

/-- Claim C1 (amended): after the per-frame snake update (insert, pop,
eat check) of any reachable state, the snake has `INITIAL_LEN + score`
segments when no food was eaten this frame, and one fewer when it was
(the missing segment appears on the next frame's skipped pop). -/
theorem C1_length_after_frame (W H camH : ℤ) (s : GameState) (inp : FrameInput)
    (hs : Reachable W H camH s) (hcam : inp.camOk = true) :
    (ateCond W H inp s →
      (gameFrame W H camH inp s).1.snake.length + 1 =
        INITIAL_LEN + (gameFrame W H camH inp s).1.score) ∧
    (¬ ateCond W H inp s →
      (gameFrame W H camH inp s).1.snake.length =
        INITIAL_LEN + (gameFrame W H camH inp s).1.score) := by
  have hinv := reachable_LenInv W H camH s hs
  have hlen := snakeAfterMove_length W H inp s hinv
  rw [gameFrame_ok W H camH inp s hcam]
  constructor
  · intro hate
    show (snakeAfterMove W H inp s).length + 1 =
      INITIAL_LEN + (if ateCond W H inp s then s.score + 1 else s.score)
    rw [if_pos hate, hlen]
    omega
  · intro hate
    show (snakeAfterMove W H inp s).length =
      INITIAL_LEN + (if ateCond W H inp s then s.score + 1 else s.score)
    rw [if_neg hate, hlen]

/-- Claim C1 witness: the amended claim at the eating frame of the
concrete run. -/
theorem C1_length_after_frame_witness :
    (gameFrame W0 H0 camH0 (inpT 1) cs1).1.snake.length + 1 =
      INITIAL_LEN + (gameFrame W0 H0 camH0 (inpT 1) cs1).1.score :=
  (C1_length_after_frame W0 H0 camH0 cs1 (inpT 1) reachable_cs1 rfl).1 ate_start

/-- The reachable start-of-game state whose fallback food lies inside an
obstacle. -/
noncomputable def cs2c : GameState :=
  start_game W0 H0 camH0 rngO2 rngF0 0 (initState W0 H0 camH0 rngO2 rngF0)

/-- Claim C2 counterexample: when all 800 tries are rejected, the
fallback food point is not checked against the obstacles and can lie
inside one, already at the initial spawn of a reachable game. -/
theorem C2_counterexample :
    Reachable W0 H0 camH0 cs2c ∧ cs2c.obstacles = [r_mid] ∧
    cs2c.food = (320, 120) ∧ r_mid.collidepoint (320, 120) := by
  refine ⟨Reachable.restart _ rngO2 rngF0 0 (Reachable.init rngO2 rngF0), ?_, ?_, by decide⟩
  · simp only [cs2c, start_game]
    exact gen_obs_O2
  · simp only [cs2c, start_game]
    rw [gen_obs_O2, init_snake_eval]
    exact spawn_food_F0 [r_mid]

/-- Claim C2 (amended): every food position returned by `spawn_food` has
`y ≥ max(120, CAM_Y + CAM_H + FOOD_GAP_BELOW_CAM)`, and every food
position produced by the sampling loop (i.e. not the fallback) lies
inside no obstacle rectangle. -/
theorem C2_food_position (W H camH : ℤ) (rng : ℕ → ℕ) (obst : List Rect) (head : ℝ × ℝ) :
    (120 ≤ (spawn_food W H camH rng obst head).2 ∧
      CAM_MARGIN_TOP + camH + FOOD_GAP_BELOW_CAM ≤
        (spawn_food W H camH rng obst head).2) ∧
    (∀ pt, spawn_food_loop W H camH rng obst head 800 0 = some pt →
      ¬ ∃ r ∈ obst, r.collidepoint pt) := by
  constructor
  · have h1 := spawn_food_y_min W H camH rng obst head
    have h2 := spawn_min_y_lower camH
    exact ⟨by omega, by omega⟩
  · intro pt hpt
    exact (spawn_food_loop_some W H camH rng obst head 800 0 pt hpt).1.1

/-- Claim C2 witness: the amended claim at a concrete accepted sample. -/
theorem C2_food_position_witness :
    120 ≤ (spawn_food W0 H0 camH0 rngF1 [r_far] ((320 : ℝ), (120 : ℝ))).2 ∧
    ¬ ∃ r ∈ [r_far], r.collidepoint (60, 180) :=
  ⟨(C2_food_position W0 H0 camH0 rngF1 [r_far] ((320 : ℝ), (120 : ℝ))).1.1,
   (C2_food_position W0 H0 camH0 rngF1 [r_far] ((320 : ℝ), (120 : ℝ))).2 (60, 180)
     spawn_food_loop_F1⟩

/-- Claim C3 counterexample: after one frame of a reachable run the two
leading segments coincide, so adjacent segments are not `SEG_SPACING`
apart. -/
theorem C3_counterexample :
    Reachable W0 H0 camH0 (traceState 1) ∧ 1 < (traceState 1).snake.length ∧
    hypot (((traceState 1).snake.getD 0 (0, 0)).1 - ((traceState 1).snake.getD 1 (0, 0)).1)
      (((traceState 1).snake.getD 0 (0, 0)).2 - ((traceState 1).snake.getD 1 (0, 0)).2) ≠
      (SEG_SPACING : ℝ) := by
  obtain ⟨hinv, hsnake⟩ := trace_start
  refine ⟨(trace_chain 1 le_rfl (by omega)).2, by rw [hsnake]; simp, ?_⟩
  rw [hsnake]
  show hypot ((320 : ℝ) - 320) ((120 : ℝ) - 120) ≠ (SEG_SPACING : ℝ)
  rw [show (320 : ℝ) - 320 = 0 by ring, show (120 : ℝ) - 120 = 0 by ring, hypot_zero]
  norm_num [SEG_SPACING]

/-- Claim C3 (amended): in the snake created by `start_game` every pair
of adjacent segments is exactly `SEG_SPACING` apart; the per-frame
update does not maintain this spacing. -/
theorem C3_initial_spacing (W H camH : ℤ) (rngO rngF : ℕ → ℕ) (t : ℝ) (s : GameState)
    (i : ℕ) (h : i + 1 < INITIAL_LEN) :
    hypot
      (((start_game W H camH rngO rngF t s).snake.getD i (0, 0)).1 -
        ((start_game W H camH rngO rngF t s).snake.getD (i + 1) (0, 0)).1)
      (((start_game W H camH rngO rngF t s).snake.getD i (0, 0)).2 -
        ((start_game W H camH rngO rngF t s).snake.getD (i + 1) (0, 0)).2) =
      (SEG_SPACING : ℝ) := by
  rw [start_game_snake]
  exact init_snake_adjacent W H i h

/-- Claim C3 witness: the first adjacent pair of a fresh snake. -/
theorem C3_initial_spacing_witness :
    0 + 1 < INITIAL_LEN ∧
    hypot
      (((start_game W0 H0 camH0 rngO0 rngF0 0 cs1).snake.getD 0 (0, 0)).1 -
        ((start_game W0 H0 camH0 rngO0 rngF0 0 cs1).snake.getD 1 (0, 0)).1)
      (((start_game W0 H0 camH0 rngO0 rngF0 0 cs1).snake.getD 0 (0, 0)).2 -
        ((start_game W0 H0 camH0 rngO0 rngF0 0 cs1).snake.getD 1 (0, 0)).2) =
      (SEG_SPACING : ℝ) :=
  ⟨by norm_num [INITIAL_LEN],
   C3_initial_spacing W0 H0 camH0 rngO0 rngF0 0 cs1 0 (by norm_num [INITIAL_LEN])⟩

/-- Claim C4 counterexample: a draw sequence on which every candidate
after the first collides, so `generate_obstacles` returns a single
rectangle instead of `OBSTACLE_COUNT`. -/
theorem C4_counterexample :
    (generate_obstacles W0 H0 rngO0 OBSTACLE_COUNT).length = 1 ∧
    (1 : ℕ) ≠ OBSTACLE_COUNT := by
  rw [gen_obs_O0]
  exact ⟨rfl, by decide⟩

/-- Claim C4 (amended): `generate_obstacles` returns at most
`OBSTACLE_COUNT` rectangles (fewer when the 400 tries run out), and
every pair of returned rectangles is separated: neither intersects the
other inflated by 60 px in each dimension. -/
theorem C4_obstacles (W H : ℤ) (rng : ℕ → ℕ) (count : ℕ) :
    (generate_obstacles W H rng count).length ≤ count ∧
    (generate_obstacles W H rng count).Pairwise RectSep :=
  ⟨obstacles_loop_length_le W H rng count 400 0 [] (by simp),
   obstacles_loop_pairwise W H rng count 400 0 [] List.Pairwise.nil⟩

/-- Claim C5 counterexample: after nine frames of a reachable run an
explosion particle has left the screen through the top edge. -/
theorem C5_counterexample :
    Reachable W0 H0 camH0 (traceState 9) ∧
    (traceState 9).particles.headI.pos.2 < 0 := by
  obtain ⟨hinv, hreach⟩ := trace_chain 9 (by omega) le_rfl
  refine ⟨hreach, ?_⟩
  rw [hinv.2.2.2.2.2.2.2.2.2]
  rw [show (18 : ℕ) = 17 + 1 from rfl, List.replicate_succ]
  show (tracePart (traceY 9) (traceV 9)).pos.2 < 0
  exact traceY_nine_neg

/-- Claim C5 (amended): obstacle rectangles and food positions do stay
within the screen (for a screen at least 240 × 240 whose camera band
leaves room for the food); snake segments and particles may leave it. -/
theorem C5_in_screen (W H camH : ℤ) (hW : 240 ≤ W) (hH : 240 ≤ H)
    (hcam : spawn_min_y camH ≤ H - 60) (rng rngF : ℕ → ℕ) (count : ℕ)
    (obst : List Rect) (head : ℝ × ℝ) :
    (∀ r ∈ generate_obstacles W H rng count, RectInScreen W H r) ∧
    PtInScreen W H (spawn_food W H camH rngF obst head) := by
  constructor
  · intro r hr
    rcases obstacles_loop_mem W H rng count 400 0 [] r hr with hmem | ⟨j, rfl⟩
    · cases hmem
    · exact obs_try_in_screen W H (by omega) hH rng j
  · have hmy := spawn_min_y_lower camH
    rcases spawn_food_spec W H camH rngF obst head with ⟨-, j, hj⟩ | hfb
    · rw [hj]
      unfold food_try PtInScreen
      simp only
      have hx1 := randint_lower 60 (W - 60) (rngF (2 * j))
      have hx2 := randint_upper 60 (W - 60) (rngF (2 * j)) (by omega)
      have hy1 := randint_lower (spawn_min_y camH) (H - 60) (rngF (2 * j + 1))
      have hy2 := randint_upper (spawn_min_y camH) (H - 60) (rngF (2 * j + 1)) hcam
      exact ⟨by omega, by omega, by omega, by omega⟩
    · rw [hfb]
      unfold PtInScreen
      simp only
      have hr1 := randint_lower (-120) 120 (rngF 1600)
      have hr2 := randint_upper (-120) 120 (rngF 1600) (by omega)
      have hfd : W.fdiv 2 = W / 2 := Int.fdiv_eq_ediv _ (by omega)
      have hfd2 : H.fdiv 2 = H / 2 := Int.fdiv_eq_ediv _ (by omega)
      rw [hfd, hfd2]
      refine ⟨by omega, by omega, ?_, ?_⟩
      · exact le_trans (by omega) (le_max_left _ _)
      · exact max_le (by omega) (by omega)

/-- Claim C5 witness: the amended claim at the concrete configuration. -/
theorem C5_in_screen_witness :
    RectInScreen W0 H0 r_far ∧
    PtInScreen W0 H0 (spawn_food W0 H0 camH0 rngF0 [] ((320 : ℝ), (120 : ℝ))) := by
  have h := C5_in_screen W0 H0 camH0 (by decide) (by decide) (by decide) rngO0 rngF0
    OBSTACLE_COUNT [] ((320 : ℝ), (120 : ℝ))
  refine ⟨?_, h.2⟩
  apply h.1
  rw [gen_obs_O0]
  exact List.mem_singleton_self r_far

/-- Claim C6: a missing camera or failed warm read exits the process
with a message; a failed in-loop read prints a message and stops the
main loop. -/
theorem C6_camera_failure :
    (∀ w : Bool, camera_startup false w = Except.error Msg.cameraNotFound) ∧
    (camera_startup true false = Except.error Msg.cameraStartupReadFailed) ∧
    (∀ (W H camH : ℤ) (inp : FrameInput) (s : GameState), inp.camOk = false →
      (gameFrame W H camH inp s).1.running = false ∧
      (gameFrame W H camH inp s).2 = [Msg.camFrameMissing]) ∧
    (∀ (W H camH : ℤ) (inps : ℕ → FrameInput) (n : ℕ) (s : GameState),
      s.running = false → mainLoop W H camH inps n s = s) := by
  refine ⟨fun w => rfl, rfl, ?_, ?_⟩
  · intro W H camH inp s h
    rw [gameFrame_camFail W H camH inp s h]
    exact ⟨rfl, rfl⟩
  · intro W H camH inps n s h
    cases n with
    | zero => rfl
    | succ m =>
      simp only [mainLoop]
      rw [if_pos h]

/-- A frame input whose camera read fails. -/
noncomputable def inpF : FrameInput :=
  { now := 0, camOk := false, hand := none, rngFood := fun _ => 0, angU := fun _ => 0,
    spdU := fun _ => 120, szR := fun _ => 0, colG := fun _ => 0, colB := fun _ => 0 }

/-- Claim C6 witness: concrete failure inputs. -/
theorem C6_camera_failure_witness :
    camera_startup false true = Except.error Msg.cameraNotFound ∧
    (gameFrame W0 H0 camH0 inpF cs1).1.running = false ∧
    mainLoop W0 H0 camH0 (fun _ => inpF) 5 ((gameFrame W0 H0 camH0 inpF cs1).1) =
      (gameFrame W0 H0 camH0 inpF cs1).1 :=
  ⟨C6_camera_failure.1 true,
   (C6_camera_failure.2.2.1 W0 H0 camH0 inpF cs1 rfl).1,
   C6_camera_failure.2.2.2 W0 H0 camH0 (fun _ => inpF) 5 _
     (C6_camera_failure.2.2.1 W0 H0 camH0 inpF cs1 rfl).1⟩

/-- Claim C7 counterexample: when beep synthesis itself fails (the
`except` branch of `try_synth_beep`), a missing sound file leaves the
sound `None` — there is no non-`None` substitute. -/
theorem C7_counterexample :
    resolve_sound none false 880 (9 / 100) (2 / 5) = none := rfl

/-- Claim C7 (amended): a missing start-button image always gets the
generated placeholder; a missing sound file gets a synthesized beep
provided the synthesis succeeds (otherwise it stays `None` and each play
site guards for that). -/
theorem C7_asset_fallback :
    (∀ loaded : Option Img, loaded = none →
      resolve_start_btn loaded = Img.startPlaceholder) ∧
    (∀ (loaded : Option Snd) (synthOk : Bool) (f d v : ℚ),
      loaded = none → synthOk = true →
      resolve_sound loaded synthOk f d v = some (Snd.beep f d v)) := by
  constructor
  · rintro _ rfl
    rfl
  · rintro _ ok f d v rfl rfl
    rfl

/-- Claim C7 witness: the eat sound (880 Hz, 0.09 s, volume 0.4). -/
theorem C7_asset_fallback_witness :
    resolve_start_btn none = Img.startPlaceholder ∧
    resolve_sound none true 880 (9 / 100) (2 / 5) =
      some (Snd.beep 880 (9 / 100) (2 / 5)) :=
  ⟨C7_asset_fallback.1 none rfl,
   C7_asset_fallback.2 none true 880 (9 / 100) (2 / 5) rfl rfl⟩

/-- Claim C8: both rejection-sampling loops are bounded — `spawn_food`
reads at most its first 1601 draws (800 tries of two draws, plus the
fallback draw) and `generate_obstacles` at most its first 1600 (400
tries of four draws) — and when all 800 tries are rejected `spawn_food`
returns the fallback point, a deterministic function of its inputs. -/
theorem C8_termination :
    (∀ (W H camH : ℤ) (rng rng' : ℕ → ℕ) (obst : List Rect) (head : ℝ × ℝ),
      (∀ i < 1601, rng i = rng' i) →
      spawn_food W H camH rng obst head = spawn_food W H camH rng' obst head) ∧
    (∀ (W H : ℤ) (rng rng' : ℕ → ℕ) (count : ℕ),
      (∀ i < 1600, rng i = rng' i) →
      generate_obstacles W H rng count = generate_obstacles W H rng' count) ∧
    (∀ (W H camH : ℤ) (rng : ℕ → ℕ) (obst : List Rect) (head : ℝ × ℝ),
      (∀ j < 800, ¬ food_accept obst head (food_try W H camH rng j)) →
      spawn_food W H camH rng obst head =
        (W.fdiv 2 + randint (-120) 120 (rng 1600),
         max (spawn_min_y camH) (H.fdiv 2))) :=
  ⟨fun W H camH rng rng' obst head h => spawn_food_congr W H camH rng rng' obst head h,
   fun W H rng rng' count h => generate_obstacles_congr W H rng rng' count h,
   fun W H camH rng obst head h => spawn_food_fallback W H camH rng obst head h⟩

/-- A stream agreeing with `rngF0` on the indices `spawn_food` reads. -/
def rngF0alt : ℕ → ℕ := fun i => if i < 1601 then rngF0 i else 7

/-- A stream agreeing with `rngO0` on the indices `generate_obstacles`
reads. -/
def rngO0alt : ℕ → ℕ := fun i => if i < 1600 then rngO0 i else 9

/-- Claim C8 witness: concrete streams. -/
theorem C8_termination_witness :
    spawn_food W0 H0 camH0 rngF0 [] ((320 : ℝ), (120 : ℝ)) =
      spawn_food W0 H0 camH0 rngF0alt [] ((320 : ℝ), (120 : ℝ)) ∧
    generate_obstacles W0 H0 rngO0 OBSTACLE_COUNT =
      generate_obstacles W0 H0 rngO0alt OBSTACLE_COUNT ∧
    spawn_food W0 H0 camH0 rngF0 [] ((320 : ℝ), (120 : ℝ)) =
      (W0.fdiv 2 + randint (-120) 120 (rngF0 1600),
       max (spawn_min_y camH0) (H0.fdiv 2)) := by
  refine ⟨C8_termination.1 W0 H0 camH0 rngF0 rngF0alt [] ((320 : ℝ), (120 : ℝ)) ?_,
    C8_termination.2.1 W0 H0 rngO0 rngO0alt OBSTACLE_COUNT ?_,
    C8_termination.2.2 W0 H0 camH0 rngF0 [] ((320 : ℝ), (120 : ℝ)) ?_⟩
  · intro i hi
    simp [rngF0alt, hi]
  · intro i hi
    simp [rngO0alt, hi]
  · intro j hj
    rw [food_try_F0 j hj]
    exact food_reject_centre []

/-- Claim C9: the self-collision loop fires exactly when some segment of
index at least 9 is within `HEAD_RADIUS - 6` of the new head; overlap
with segments 0-8 alone never fires it. -/
theorem C9_self_collision :
    (∀ (head : ℝ × ℝ) (snake : List (ℝ × ℝ)), selfCollide head snake ↔
      ∃ i, 9 ≤ i ∧ i < snake.length ∧
        hypot (head.1 - (snake.getD i (0, 0)).1) (head.2 - (snake.getD i (0, 0)).2) <
          HEAD_RADIUS - 6) ∧
    (∀ (head : ℝ × ℝ) (snake : List (ℝ × ℝ)),
      (∀ i, 9 ≤ i → i < snake.length →
        ¬ (hypot (head.1 - (snake.getD i (0, 0)).1) (head.2 - (snake.getD i (0, 0)).2) <
          HEAD_RADIUS - 6)) → ¬ selfCollide head snake) := by
  refine ⟨selfCollide_iff, ?_⟩
  intro head snake h hc
  rw [selfCollide_iff] at hc
  obtain ⟨i, h9, hlen, hlt⟩ := hc
  exact h i h9 hlen hlt

/-- Claim C9 witness: a head lying exactly on all nine leading segments
(distance 0 everywhere) still triggers no self-collision. -/
theorem C9_self_collision_witness :
    ¬ selfCollide ((0 : ℝ), (0 : ℝ)) (List.replicate 9 ((0 : ℝ), (0 : ℝ))) :=
  C9_self_collision.2 ((0 : ℝ), (0 : ℝ)) (List.replicate 9 ((0 : ℝ), (0 : ℝ)))
    (fun i h9 hlen => by
      rw [List.length_replicate] at hlen
      omega)

/-- Claim C10: `start_game` fully resets the game regardless of the
previous state: game page, score 0, not game over, no particles, timer
restarted, a fresh `INITIAL_LEN`-segment snake spaced `SEG_SPACING`
apart horizontally from the screen centre, and freshly generated
obstacles and food. -/
theorem C10_start_game_reset (W H camH : ℤ) (rngO rngF : ℕ → ℕ) (t : ℝ) (s : GameState) :
    (start_game W H camH rngO rngF t s).page = PAGE_GAME ∧
    (start_game W H camH rngO rngF t s).score = 0 ∧
    ¬ (start_game W H camH rngO rngF t s).gameOver ∧
    (start_game W H camH rngO rngF t s).particles = [] ∧
    (start_game W H camH rngO rngF t s).startTime = t ∧
    (start_game W H camH rngO rngF t s).snake.length = INITIAL_LEN ∧
    (∀ i, i < INITIAL_LEN → (start_game W H camH rngO rngF t s).snake.getD i (0, 0) =
      (((W.fdiv 2 - (i : ℤ) * SEG_SPACING : ℤ) : ℝ), ((H.fdiv 2 : ℤ) : ℝ))) ∧
    (start_game W H camH rngO rngF t s).obstacles =
      generate_obstacles W H rngO OBSTACLE_COUNT ∧
    (start_game W H camH rngO rngF t s).food =
      spawn_food W H camH rngF (generate_obstacles W H rngO OBSTACLE_COUNT)
        (init_snake W H).headI := by
  refine ⟨rfl, rfl, fun h => h, rfl, rfl, ?_, ?_, rfl, rfl⟩
  · rw [start_game_snake]
    exact init_snake_length W H
  · intro i hi
    rw [start_game_snake]
    exact init_snake_getD W H i hi

/-- Claim C10 witness: the reset applied to a mid-game state. -/
theorem C10_start_game_reset_witness :
    (start_game W0 H0 camH0 rngO0 rngF0 0 cs1).snake.getD 2 (0, 0) =
      (((W0.fdiv 2 - (2 : ℕ) * SEG_SPACING : ℤ) : ℝ), ((H0.fdiv 2 : ℤ) : ℝ)) ∧
    (start_game W0 H0 camH0 rngO0 rngF0 0 cs1).page = PAGE_GAME :=
  ⟨(C10_start_game_reset W0 H0 camH0 rngO0 rngF0 0 cs1).2.2.2.2.2.2.1 2
      (by norm_num [INITIAL_LEN]),
   (C10_start_game_reset W0 H0 camH0 rngO0 rngF0 0 cs1).1⟩

end SnakeGame
